import Mathlib

/-!
Verification of the http-smpp-bridge core against its source.
The definitions below are shallow embeddings of the JavaScript source
(the multi-peer bridge in src/unnamed/part_000, with src/app.js as the
single-peer variant).  JavaScript truthiness on optional strings and
numbers is made explicit; external collaborators (the regular-expression
engine, the HTTP client outcome, wall-clock time) are passed in as
parameters so that every theorem quantifies over their behaviour.
-/

namespace Bridge

/-- JavaScript truthiness of an optional string: undefined and the empty
string are falsy, every other string is truthy. -/
def strTruthy : Option String → Bool
  | none => false
  | some s => !(s = "")

/-- JavaScript `x || d` on an optional number: undefined and 0 are falsy,
so a missing value and a configured 0 both yield the default. -/
def natOr (x : Option Nat) (d : Nat) : Nat :=
  match x with
  | some v => if v = 0 then d else v
  | none => d

/-- Read an optional query value as the string the handler destructured
(only used after the truthiness guard, so the fallback is immaterial). -/
def optStr (x : Option String) : String :=
  x.getD ""

/-- Static peer configuration, from the smpp_peers entries of config.yaml
(fields read by the routing and submit paths of the source). -/
structure Peer where
  id : String
  route_regex : Option String
  isDefault : Bool
  source_addr_ton : Option Nat
  source_addr_npi : Option Nat
  dest_addr_ton : Option Nat
  dest_addr_npi : Option Nat
  reconnect_interval : Option Nat
deriving DecidableEq

/-- The dynamic per-peer entry of the peerSessions map: isBound is the
flag set on a successful bind_transceiver response, hasSession records
whether the session field is non-null. -/
structure PeerState where
  isBound : Bool
  hasSession : Bool
deriving DecidableEq

/-- The bound check of routeToPeer and waitForBoundPeer in the source:
the peer has a map entry, its isBound flag is set and its session field
is non-null. -/
def peerBound (states : String → Option PeerState) (p : Peer) : Bool :=
  match states p.id with
  | none => false
  | some st => st.isBound && st.hasSession

/-- The for-loop of routeToPeer (src/unnamed/part_000 lines 219-237):
skip peers that are not bound, then test a truthy route_regex; a regex
that fails to compile is caught and the peer is skipped.  The regex
engine is abstracted by the parameters compiles and rtest. -/
def routeLoop (compiles : String → Bool) (rtest : String → String → Bool)
    (states : String → Option PeerState) (dest : String) : List Peer → Option Peer
  | [] => none
  | p :: rest =>
    if peerBound states p then
      match p.route_regex with
      | some r =>
        if !(r = "") then
          if compiles r then
            if rtest r dest then some p else routeLoop compiles rtest states dest rest
          else routeLoop compiles rtest states dest rest
        else routeLoop compiles rtest states dest rest
      | none => routeLoop compiles rtest states dest rest
    else routeLoop compiles rtest states dest rest

/-- routeToPeer (src/unnamed/part_000 lines 217-250): first the regex
loop over the configured peers, then the fallback to the startup-computed
defaultPeer (the first peer whose default flag is true) when that peer is
bound with a live session. -/
def routeToPeer (compiles : String → Bool) (rtest : String → String → Bool)
    (states : String → Option PeerState) (peers : List Peer) (dest : String) : Option Peer :=
  match routeLoop compiles rtest states dest peers with
  | some p => some p
  | none =>
    match peers.find? (fun p => p.isDefault) with
    | some dp => if peerBound states dp then some dp else none
    | none => none

/-- Modelled from the spec wording of claim C1: a peer is a regex-routing
candidate when it is bound, has a non-empty route_regex that compiles,
and the regex accepts the destination. -/
def regexCandidate (compiles : String → Bool) (rtest : String → String → Bool)
    (states : String → Option PeerState) (dest : String) (p : Peer) : Bool :=
  peerBound states p &&
    (match p.route_regex with
     | some r => !(r = "") && compiles r && rtest r dest
     | none => false)

/-- Modelled from the spec wording of claim C1 (spec section 4.4): return
the first regex-routing candidate in configuration order; if none, return
the default peer exactly when one exists and is bound; otherwise none. -/
def routeSpec (compiles : String → Bool) (rtest : String → String → Bool)
    (states : String → Option PeerState) (peers : List Peer) (dest : String) : Option Peer :=
  match peers.find? (regexCandidate compiles rtest states dest) with
  | some p => some p
  | none =>
    match peers.find? (fun p => p.isDefault) with
    | some dp => if peerBound states dp then some dp else none
    | none => none

theorem routeLoop_eq_find (compiles : String → Bool) (rtest : String → String → Bool)
    (states : String → Option PeerState) (dest : String) (peers : List Peer) :
    routeLoop compiles rtest states dest peers
      = peers.find? (regexCandidate compiles rtest states dest) := by
  induction peers with
  | nil => rfl
  | cons p rest ih =>
    rw [List.find?]
    cases hb : peerBound states p with
    | false =>
      simp only [routeLoop, hb, if_neg]
      have : regexCandidate compiles rtest states dest p = false := by
        simp [regexCandidate, hb]
      rw [this, ih]
      simp
    | true =>
      cases hr : p.route_regex with
      | none =>
        have : regexCandidate compiles rtest states dest p = false := by
          simp [regexCandidate, hb, hr]
        simp only [routeLoop, hb, hr, this, ih]
        simp
      | some r =>
        by_cases he : r = ""
        · have : regexCandidate compiles rtest states dest p = false := by
            simp [regexCandidate, hb, hr, he]
          simp only [routeLoop, hb, hr, he, this, ih]
          simp
        · cases hc : compiles r with
          | false =>
            have : regexCandidate compiles rtest states dest p = false := by
              simp [regexCandidate, hb, hr, he, hc]
            simp only [routeLoop, hb, hr, he, hc, this, ih]
            simp
          | true =>
            cases hm : rtest r dest with
            | false =>
              have : regexCandidate compiles rtest states dest p = false := by
                simp [regexCandidate, hb, hr, he, hc, hm]
              simp only [routeLoop, hb, hr, he, hc, hm, this, ih]
              simp
            | true =>
              have : regexCandidate compiles rtest states dest p = true := by
                simp [regexCandidate, hb, hr, he, hc, hm]
              simp only [routeLoop, hb, hr, he, hc, hm, this]
              simp

/-- Claim C1: routeToPeer iterates the peers in configuration order,
considers only bound peers with a non-empty route_regex, returns the
first whose regex compiles and accepts the destination; if no regex
accepts, it returns the default peer exactly when one exists and is bound;
otherwise no peer.  Every returned peer is bound, and a peer whose
regex fails to compile is skipped for regex routing yet remains
eligible as the default peer (the default branch of routeSpec ignores
the regex).  Stated as a refinement: routeToPeer, translated from the
source, coincides with routeSpec, written from the claim, and only
bound peers are ever returned. -/
theorem routeToPeer_spec (compiles : String → Bool) (rtest : String → String → Bool)
    (states : String → Option PeerState) (peers : List Peer) (dest : String) :
    routeToPeer compiles rtest states peers dest
        = routeSpec compiles rtest states peers dest
    ∧ (∀ p, routeToPeer compiles rtest states peers dest = some p →
        peerBound states p = true) := by
  have heq : routeToPeer compiles rtest states peers dest
      = routeSpec compiles rtest states peers dest := by
    unfold routeToPeer routeSpec
    rw [routeLoop_eq_find]
  refine ⟨heq, ?_⟩
  intro p hp
  rw [heq] at hp
  unfold routeSpec at hp
  split at hp
  · cases hp
    rename_i q hq
    have hcand : regexCandidate compiles rtest states dest p = true :=
      List.find?_some hq
    unfold regexCandidate at hcand
    exact ((Bool.and_eq_true _ _).mp hcand).1
  · split at hp
    · split at hp
      · cases hp
        rename_i hb
        exact hb
      · cases hp
    · cases hp

/-- A two-peer configuration for concrete evaluation: p1 routes by regex,
p2 is the default. -/
def peerP1 : Peer :=
  { id := "p1", route_regex := some "^49", isDefault := false,
    source_addr_ton := none, source_addr_npi := none,
    dest_addr_ton := none, dest_addr_npi := none,
    reconnect_interval := none }

def peerP2 : Peer :=
  { id := "p2", route_regex := none, isDefault := true,
    source_addr_ton := none, source_addr_npi := none,
    dest_addr_ton := none, dest_addr_npi := none,
    reconnect_interval := none }

def statesBoth : String → Option PeerState :=
  fun i => if i = "p1" then some { isBound := true, hasSession := true }
    else if i = "p2" then some { isBound := true, hasSession := true }
    else none

def compilesAll : String → Bool := fun _ => true

def matchesPre : String → String → Bool := fun r t =>
  r = "^49" && t = "4911"

/-- Witness for claim C1: in the concrete two-peer configuration the
router selects p1 for destination 4911 and p1 is indeed bound. -/
theorem routeToPeer_spec_witness :
    peerBound statesBoth peerP1 = true :=
  (routeToPeer_spec compilesAll matchesPre statesBoth [peerP1, peerP2] "4911").2
    peerP1 (by decide)

/-- An incoming PDU on a bound client session, as the pdu listener sees
it: its command name and sequence number. -/
structure InPdu where
  command : String
  sequence_number : Nat
deriving DecidableEq

/-- Observable acts of the pdu listener, in emission order: the return of
the HTTP egress call (with its outcome) and the deliver_sm_resp written
back to the session. -/
inductive SessionEvent where
  | egressReturned (ok : Bool)
  | deliverSmResp (sequence_number : Nat) (command_status : Nat)
deriving DecidableEq

/-- True for a deliver_sm_resp event carrying the given sequence number. -/
def isRespFor (seq : Nat) : SessionEvent → Bool
  | SessionEvent.deliverSmResp s _ => s = seq
  | _ => false

/-- The pdu listener installed by setupPDUListener (src/unnamed/part_000
lines 100-124; removeAllListeners guarantees it is the only listener).
For a deliver_sm it awaits the HTTP egress call and then writes a
deliver_sm_resp with the original sequence number, in the try branch on
egress success and in the catch branch on egress failure; command_status
is not set by the source and defaults to 0 in the smpp library.  Other
commands emit nothing from this listener. -/
def onPdu (egressOk : Bool) (pdu : InPdu) : List SessionEvent :=
  if pdu.command = "deliver_sm" then
    if egressOk then
      [SessionEvent.egressReturned true,
       SessionEvent.deliverSmResp pdu.sequence_number 0]
    else
      [SessionEvent.egressReturned false,
       SessionEvent.deliverSmResp pdu.sequence_number 0]
  else []

/-- Claim C2: for every deliver_sm received on a bound client session,
exactly one deliver_sm_resp carrying its sequence number and
command_status 0 is emitted, and it is emitted after the HTTP egress
call has returned, on egress success and on egress failure alike; the
egress failure is not propagated to the peer (both branches emit the
same status-0 response). -/
theorem deliver_sm_ack (egressOk : Bool) (pdu : InPdu)
    (h : pdu.command = "deliver_sm") :
    onPdu egressOk pdu
        = [SessionEvent.egressReturned egressOk,
           SessionEvent.deliverSmResp pdu.sequence_number 0]
    ∧ (onPdu egressOk pdu).countP (isRespFor pdu.sequence_number) = 1 := by
  cases egressOk <;> simp [onPdu, h, List.countP, List.countP.go, isRespFor]

/-- Witness for claim C2, on the egress-failure side: a deliver_sm with
sequence number 42 whose egress call failed still gets exactly one
status-0 deliver_sm_resp, after the egress return. -/
theorem deliver_sm_ack_witness :
    onPdu false { command := "deliver_sm", sequence_number := 42 }
        = [SessionEvent.egressReturned false, SessionEvent.deliverSmResp 42 0]
    ∧ (onPdu false { command := "deliver_sm", sequence_number := 42 }).countP
        (isRespFor 42) = 1 :=
  deliver_sm_ack false { command := "deliver_sm", sequence_number := 42 } rfl

/-- One observable act of the HTTP egress operation: an attempt (with the
per-attempt timeout passed to the HTTP client, in ms) or the fixed delay
slept between attempts (in ms). -/
inductive EgAct where
  | attempt (n timeoutMs : Nat)
  | wait (ms : Nat)
deriving DecidableEq

/-- Number of attempt acts in an egress trace. -/
def countAttempts (l : List EgAct) : Nat :=
  l.countP (fun a => match a with | EgAct.attempt _ _ => true | _ => false)

/-- The retry loop of forwardToKamailio (src/unnamed/part_000 lines
385-401), recursing on the number of attempts still allowed: on success
return; on failure sleep the retry delay and continue unless this was
the last allowed attempt, in which case the error is rethrown to the
caller (the EGRESS_FAILED outcome, encoded as false).  The parameter ok
tells, for each attempt number, whether the HTTP GET resolved (axios
resolves only for a 2xx response; transport errors and non-2xx
responses reject and land in the catch). -/
def forwardFrom (ok : Nat → Bool) (timeoutMs retryDelay : Nat) :
    Nat → Nat → List EgAct × Bool
  | _, 0 => ([], false)
  | attempt, rem + 1 =>
    if ok attempt then ([EgAct.attempt attempt timeoutMs], true)
    else if rem = 0 then ([EgAct.attempt attempt timeoutMs], false)
    else
      let r := forwardFrom ok timeoutMs retryDelay (attempt + 1) rem
      (EgAct.attempt attempt timeoutMs :: EgAct.wait retryDelay :: r.1, r.2)

/-- forwardToKamailio with its default arguments (src/unnamed/part_000
line 374): 3 retries, 1000 ms delay, 5000 ms per-attempt timeout,
starting at attempt 1. -/
def forwardToKamailio (ok : Nat → Bool) : List EgAct × Bool :=
  forwardFrom ok 5000 1000 1 3

/-- Claim C3: the HTTP egress makes at most 3 attempts, each with a
5000 ms timeout and a fixed 1000 ms delay between attempts; the first
successful attempt among the 3 ends the operation with success and no
further attempts, and when all 3 attempts fail the error is raised to
the caller (EGRESS_FAILED, the false outcome).  The trace is fully
characterised by the outcomes of the first three attempts. -/
theorem forwardToKamailio_spec (ok : Nat → Bool) :
    forwardToKamailio ok
        = (if ok 1 then ([EgAct.attempt 1 5000], true)
           else if ok 2 then
             ([EgAct.attempt 1 5000, EgAct.wait 1000, EgAct.attempt 2 5000], true)
           else if ok 3 then
             ([EgAct.attempt 1 5000, EgAct.wait 1000, EgAct.attempt 2 5000,
               EgAct.wait 1000, EgAct.attempt 3 5000], true)
           else
             ([EgAct.attempt 1 5000, EgAct.wait 1000, EgAct.attempt 2 5000,
               EgAct.wait 1000, EgAct.attempt 3 5000], false))
    ∧ countAttempts (forwardToKamailio ok).1 ≤ 3 := by
  cases h1 : ok 1 <;> cases h2 : ok 2 <;> cases h3 : ok 3 <;>
    simp [forwardToKamailio, forwardFrom, h1, h2, h3, countAttempts,
      List.countP, List.countP.go]

/-- The polling loop of waitForBoundPeer (src/unnamed/part_000 lines
256-271), idealised to one poll every 100 ms: anyBound k tells whether
some peer is bound with a live session at the k-th poll, and the fuel is
the number of polls that fit in the timeout window. -/
def waitForBoundPeerGo (anyBound : Nat → Bool) : Nat → Nat → Bool
  | _, 0 => false
  | k, fuel + 1 =>
    if anyBound k then true else waitForBoundPeerGo anyBound (k + 1) fuel

/-- waitForBoundPeer (src/unnamed/part_000 lines 253-274): poll every
100 ms while the elapsed time is below the timeout; return true at the
first poll finding a bound peer, false when the window is exhausted. -/
def waitForBoundPeer (anyBound : Nat → Bool) (timeoutMs : Nat) : Bool :=
  waitForBoundPeerGo anyBound 0 ((timeoutMs + 99) / 100)

theorem waitForBoundPeerGo_false (anyBound : Nat → Bool) :
    ∀ fuel start, (∀ k, start ≤ k → k < start + fuel → anyBound k = false) →
      waitForBoundPeerGo anyBound start fuel = false := by
  intro fuel
  induction fuel with
  | zero => intro start h; rfl
  | succ n ih =>
    intro start h
    have h0 : anyBound start = false := h start (Nat.le_refl start) (by omega)
    simp only [waitForBoundPeerGo, h0, if_neg]
    have := ih (start + 1) (fun k hk1 hk2 => h k (by omega) (by omega))
    simpa using this

/-- The submit_sm PDU built by the /send_sms handler. -/
structure SubmitSmPdu where
  source_addr : String
  source_addr_ton : Nat
  source_addr_npi : Nat
  destination_addr : String
  dest_addr_ton : Nat
  dest_addr_npi : Nat
  short_message : String
  data_coding : Int
  registered_delivery : Nat
deriving DecidableEq

/-- The submit_sm construction of the /send_sms handler
(src/unnamed/part_000 lines 450-459): TON and NPI come from the selected
peer with JavaScript default 1, data_coding is parseInt of the dcs query
value when that value is truthy and 0 otherwise, and registered_delivery
is set to 1.  The parameter parseIntJs abstracts the JavaScript parseInt
function. -/
def buildSubmitSm (parseIntJs : String → Int) (peer : Peer)
    (fromS toS textS : String) (dcsQ : Option String) : SubmitSmPdu :=
  { source_addr := fromS
  , source_addr_ton := natOr peer.source_addr_ton 1
  , source_addr_npi := natOr peer.source_addr_npi 1
  , destination_addr := toS
  , dest_addr_ton := natOr peer.dest_addr_ton 1
  , dest_addr_npi := natOr peer.dest_addr_npi 1
  , short_message := textS
  , data_coding :=
      match dcsQ with
      | some s => if s = "" then 0 else parseIntJs s
      | none => 0
  , registered_delivery := 1 }

/-- Outcome of the /send_sms handler up to the point where the PDU is
written to the selected session (the HTTP reply to a dispatched request
is settled later by the submit_sm response callback). -/
inductive DispatchResult where
  | missingParams (status : Nat) (body : String)
  | noPeerAvailable (status : Nat) (body : String)
  | noValidSession (status : Nat) (body : String)
  | submitted (peerId : String) (pdu : SubmitSmPdu)
deriving DecidableEq

/-- The /send_sms handler of src/unnamed/part_000 (lines 416-459), up to
writing the submit_sm: validate presence (JavaScript truthiness) of the
from, to and text query values; await waitForBoundPeer with its default
15000 ms timeout; route; re-check the session of the routed peer (a
branch routeToPeer makes unreachable, since it only returns peers whose
map entry is bound with a session); build and send the submit_sm. -/
def sendSmsDispatch (compiles : String → Bool) (rtest : String → String → Bool)
    (parseIntJs : String → Int) (peers : List Peer)
    (states : String → Option PeerState) (anyBound : Nat → Bool)
    (fromQ toQ textQ dcsQ : Option String) : DispatchResult :=
  if !strTruthy fromQ || !strTruthy toQ || !strTruthy textQ then
    DispatchResult.missingParams 400 "Missing required parameters: from, to, text"
  else if !waitForBoundPeer anyBound 15000 then
    DispatchResult.noPeerAvailable 503 "No SMPP peer available"
  else
    match routeToPeer compiles rtest states peers (optStr toQ) with
    | none => DispatchResult.noPeerAvailable 503 "No SMPP peer available"
    | some peer =>
      match states peer.id with
      | none => DispatchResult.noValidSession 503 "No valid SMPP session, retry later"
      | some st =>
        if !st.hasSession then
          DispatchResult.noValidSession 503 "No valid SMPP session, retry later"
        else
          DispatchResult.submitted peer.id
            (buildSubmitSm parseIntJs peer (optStr fromQ) (optStr toQ)
              (optStr textQ) dcsQ)

/-- Claim C7: a /send_sms request missing any of the required from, to
or text query parameters is answered 400 with a textual error naming the
missing parameters, and nothing is sent on SMPP; otherwise the handler
waits for a bound peer with the 15 s timeout (150 polls of the 100 ms
loop), and when no peer is bound at any poll in that window it is
answered 503 with body No SMPP peer available. -/
theorem send_sms_gate_spec (compiles : String → Bool)
    (rtest : String → String → Bool) (parseIntJs : String → Int)
    (peers : List Peer) (states : String → Option PeerState)
    (anyBound : Nat → Bool) (fromQ toQ textQ dcsQ : Option String) :
    (strTruthy fromQ = false ∨ strTruthy toQ = false ∨ strTruthy textQ = false →
      sendSmsDispatch compiles rtest parseIntJs peers states anyBound
          fromQ toQ textQ dcsQ
        = DispatchResult.missingParams 400
            "Missing required parameters: from, to, text")
    ∧ (strTruthy fromQ = true → strTruthy toQ = true → strTruthy textQ = true →
      (∀ k, k < 150 → anyBound k = false) →
      sendSmsDispatch compiles rtest parseIntJs peers states anyBound
          fromQ toQ textQ dcsQ
        = DispatchResult.noPeerAvailable 503 "No SMPP peer available") := by
  constructor
  · intro h
    unfold sendSmsDispatch
    rcases h with h | h | h <;> simp [h]
  · intro hf ht hx hnone
    have hwait : waitForBoundPeer anyBound 15000 = false := by
      unfold waitForBoundPeer
      exact waitForBoundPeerGo_false anyBound 150 0
        (fun k _ hk => hnone k (by omega))
    unfold sendSmsDispatch
    simp [hf, ht, hx, hwait]

/-- Witness for claim C7: with the text parameter absent the handler
answers 400 without touching SMPP, for an arbitrary concrete
configuration. -/
theorem send_sms_gate_spec_witness :
    sendSmsDispatch compilesAll matchesPre (fun _ => 0) [peerP1, peerP2]
        statesBoth (fun _ => true) (some "100") (some "4911") none none
      = DispatchResult.missingParams 400
          "Missing required parameters: from, to, text" :=
  (send_sms_gate_spec compilesAll matchesPre (fun _ => 0) [peerP1, peerP2]
      statesBoth (fun _ => true) (some "100") (some "4911") none none).1
    (Or.inr (Or.inr rfl))

/-- The submit_sm response PDU as seen by the /send_sms callback; an
empty message_id stands for an absent (falsy) one. -/
structure SubmitRespPdu where
  command_status : Nat
  message_id : String
deriving DecidableEq

/-- What the /send_sms request observes after dispatch: an HTTP response,
or nothing at all when the callback is never invoked. -/
inductive CallbackResult where
  | respond (status : Nat) (body : String)
  | noHttpResponse
deriving DecidableEq

/-- The callback passed to session.submit_sm by the /send_sms handler
(src/unnamed/part_000 lines 460-470).  The input none models a response
PDU that never arrives: the smpp library then never invokes the
callback, and the source has no timer or timeout path that would write
an HTTP response in its place, so the request receives no response from
the handler.  On command_status 0 the body carries the message_id of the
response when it is non-empty and not the placeholder
msg_id_not_implemented, and a locally generated app- identifier
otherwise; on a non-zero status the handler answers 500 with the status
code in the body. -/
def submitCallback (now : Nat) : Option SubmitRespPdu → CallbackResult
  | none => CallbackResult.noHttpResponse
  | some pdu =>
    if pdu.command_status = 0 then
      let mid :=
        if !(pdu.message_id = "") && !(pdu.message_id = "msg_id_not_implemented")
        then pdu.message_id else "app-" ++ toString now
      CallbackResult.respond 200 ("OK - message_id=" ++ mid)
    else
      CallbackResult.respond 500
        ("Error: SMPP submit_sm failed (" ++ toString pdu.command_status ++ ")")

/-- True only for an HTTP response with status 504. -/
def respondsWith504 : CallbackResult → Bool
  | CallbackResult.respond 504 _ => true
  | _ => false

/-- Counterexample to claim C4: when the submit_sm response PDU never
arrives, the handler emits no HTTP response at all, and in particular
no 504 — the source has no response-timeout path. -/
theorem submit_callback_no504_cex :
    submitCallback 0 none = CallbackResult.noHttpResponse
    ∧ respondsWith504 (submitCallback 0 none) = false :=
  ⟨rfl, rfl⟩

/-- Claim C4 as amended: for a dispatched /send_sms request, a response
PDU with command_status 0 yields HTTP 200 with body OK - message_id=
followed by an identifier; a non-zero status yields HTTP 500 with the
SMPP status code in the body; and when no response PDU arrives the
handler sends no HTTP response (there is no timeout or 504 path). -/
theorem submit_callback_spec (now : Nat) (resp : Option SubmitRespPdu) :
    (∀ p, resp = some p → p.command_status = 0 →
      ∃ mid, submitCallback now resp
        = CallbackResult.respond 200 ("OK - message_id=" ++ mid))
    ∧ (∀ p, resp = some p → p.command_status ≠ 0 →
      submitCallback now resp
        = CallbackResult.respond 500
            ("Error: SMPP submit_sm failed (" ++ toString p.command_status ++ ")"))
    ∧ (resp = none → submitCallback now resp = CallbackResult.noHttpResponse) := by
  refine ⟨?_, ?_, ?_⟩
  · intro p hp h0
    subst hp
    refine ⟨if !(p.message_id = "") && !(p.message_id = "msg_id_not_implemented")
      then p.message_id else "app-" ++ toString now, ?_⟩
    simp [submitCallback, h0]
  · intro p hp hne
    subst hp
    simp [submitCallback, hne]
  · intro hp
    subst hp
    rfl

/-- Witness for claim C4 as amended: a status-0 response with
message_id A1 yields a 200 whose body starts with OK - message_id=. -/
theorem submit_callback_spec_witness :
    ∃ mid, submitCallback 7 (some { command_status := 0, message_id := "A1" })
      = CallbackResult.respond 200 ("OK - message_id=" ++ mid) :=
  (submit_callback_spec 7 (some { command_status := 0, message_id := "A1" })).1
    { command_status := 0, message_id := "A1" } rfl rfl

/-- The relation claim C8 asserts, with JavaScript falsiness made
explicit, between the selected peer, the dcs query value and the built
submit_sm: TON and NPI come from the peer configuration when present
and non-zero and default to 1 when absent or 0 (JavaScript or-default),
registered_delivery is 1, and data_coding is the parsed dcs value when
that value is present and non-empty and 0 otherwise. -/
def usesPeerDefaults (parseIntJs : String → Int) (peer : Peer)
    (dcsQ : Option String) (pdu : SubmitSmPdu) : Prop :=
  ((peer.source_addr_ton = none ∨ peer.source_addr_ton = some 0) →
      pdu.source_addr_ton = 1)
  ∧ (∀ v, peer.source_addr_ton = some v → v ≠ 0 → pdu.source_addr_ton = v)
  ∧ ((peer.source_addr_npi = none ∨ peer.source_addr_npi = some 0) →
      pdu.source_addr_npi = 1)
  ∧ (∀ v, peer.source_addr_npi = some v → v ≠ 0 → pdu.source_addr_npi = v)
  ∧ ((peer.dest_addr_ton = none ∨ peer.dest_addr_ton = some 0) →
      pdu.dest_addr_ton = 1)
  ∧ (∀ v, peer.dest_addr_ton = some v → v ≠ 0 → pdu.dest_addr_ton = v)
  ∧ ((peer.dest_addr_npi = none ∨ peer.dest_addr_npi = some 0) →
      pdu.dest_addr_npi = 1)
  ∧ (∀ v, peer.dest_addr_npi = some v → v ≠ 0 → pdu.dest_addr_npi = v)
  ∧ pdu.registered_delivery = 1
  ∧ ((dcsQ = none ∨ dcsQ = some "") → pdu.data_coding = 0)
  ∧ (∀ s, dcsQ = some s → s ≠ "" → pdu.data_coding = parseIntJs s)

theorem natOr_default (x : Option Nat) (d : Nat) :
    ((x = none ∨ x = some 0) → natOr x d = d)
    ∧ (∀ v, x = some v → v ≠ 0 → natOr x d = v) := by
  constructor
  · rintro (h | h) <;> subst h <;> simp [natOr]
  · intro v hv hne
    subst hv
    simp [natOr, hne]

theorem buildSubmitSm_usesPeerDefaults (parseIntJs : String → Int)
    (peer : Peer) (fromS toS textS : String) (dcsQ : Option String) :
    usesPeerDefaults parseIntJs peer dcsQ
      (buildSubmitSm parseIntJs peer fromS toS textS dcsQ) := by
  refine ⟨?_, ?_, ?_, ?_, ?_, ?_, ?_, ?_, rfl, ?_, ?_⟩
  · exact fun h => (natOr_default peer.source_addr_ton 1).1 h
  · exact fun v hv hne => (natOr_default peer.source_addr_ton 1).2 v hv hne
  · exact fun h => (natOr_default peer.source_addr_npi 1).1 h
  · exact fun v hv hne => (natOr_default peer.source_addr_npi 1).2 v hv hne
  · exact fun h => (natOr_default peer.dest_addr_ton 1).1 h
  · exact fun v hv hne => (natOr_default peer.dest_addr_ton 1).2 v hv hne
  · exact fun h => (natOr_default peer.dest_addr_npi 1).1 h
  · exact fun v hv hne => (natOr_default peer.dest_addr_npi 1).2 v hv hne
  · rintro (h | h) <;> subst h <;> simp [buildSubmitSm]
  · intro s hs hne
    subst hs
    simp [buildSubmitSm, hne]

/-- A default peer whose dest_addr_ton is configured as 0 (a legal SMPP
TON meaning unknown). -/
def peerTonZero : Peer :=
  { id := "pz", route_regex := none, isDefault := true,
    source_addr_ton := none, source_addr_npi := none,
    dest_addr_ton := some 0, dest_addr_npi := none,
    reconnect_interval := none }

/-- Counterexample to claim C8: for a peer whose dest_addr_ton is
configured as 0, the built submit_sm carries 1, not the configured
value — the JavaScript or-default treats a configured 0 as absent. -/
theorem submit_build_ton_zero_cex :
    peerTonZero.dest_addr_ton = some 0
    ∧ (buildSubmitSm (fun _ => 0) peerTonZero "100" "200" "hi" none).dest_addr_ton
        = 1 :=
  ⟨rfl, rfl⟩

/-- Claim C8 as amended: every submit_sm built by the HTTP ingress for a
routed request takes its source and destination TON and NPI from the
selected peer when configured non-zero, defaulting to 1 when the value
is absent or configured 0; it sets registered_delivery to 1 to request
delivery receipts; and its data_coding is the dcs query value parsed as
an integer when present and non-empty, defaulting to 0 otherwise. -/
theorem submit_build_spec (compiles : String → Bool)
    (rtest : String → String → Bool) (parseIntJs : String → Int)
    (peers : List Peer) (states : String → Option PeerState)
    (anyBound : Nat → Bool) (fromQ toQ textQ dcsQ : Option String)
    (pid : String) (pdu : SubmitSmPdu)
    (h : sendSmsDispatch compiles rtest parseIntJs peers states anyBound
        fromQ toQ textQ dcsQ = DispatchResult.submitted pid pdu) :
    ∃ peer, routeToPeer compiles rtest states peers (optStr toQ) = some peer
      ∧ pid = peer.id ∧ usesPeerDefaults parseIntJs peer dcsQ pdu := by
  unfold sendSmsDispatch at h
  split at h
  · simp at h
  · split at h
    · simp at h
    · split at h
      · simp at h
      · rename_i peer heq
        split at h
        · simp at h
        · rename_i st hst
          split at h
          · simp at h
          · injection h with h1 h2
            subst h1
            subst h2
            exact ⟨peer, heq, rfl,
              buildSubmitSm_usesPeerDefaults parseIntJs peer (optStr fromQ)
                (optStr toQ) (optStr textQ) dcsQ⟩

/-- Witness for claim C8 as amended: the concrete two-peer configuration
routes destination 4911 to p1 and the built PDU satisfies the stated
field relation. -/
theorem submit_build_spec_witness :
    ∃ peer, routeToPeer compilesAll matchesPre statesBoth [peerP1, peerP2]
          (optStr (some "4911")) = some peer
      ∧ "p1" = peer.id
      ∧ usesPeerDefaults (fun _ => 0) peer none
          (buildSubmitSm (fun _ => 0) peerP1 "100" "4911" "hi" none) :=
  submit_build_spec compilesAll matchesPre (fun _ => 0) [peerP1, peerP2]
    statesBoth (fun _ => true) (some "100") (some "4911") (some "hi") none
    "p1" (buildSubmitSm (fun _ => 0) peerP1 "100" "4911" "hi" none) (by decide)

/-- One entry of the smpp_server auth list in config.yaml. -/
structure Cred where
  system_id : String
  password : String
deriving DecidableEq

/-- The credential lookup of the server bind handlers
(src/unnamed/part_000 lines 296-298): a linear scan for an entry whose
system_id and password both match. -/
def authenticate (auth : List Cred) (sid pw : String) : Bool :=
  auth.any (fun c => c.system_id = sid && c.password = pw)

/-- The three SMPP bind commands. -/
inductive BindKind where
  | transmitter
  | receiver
  | transceiver
deriving DecidableEq

/-- ESME_RBINDFAIL, status 0x0D. -/
def ESME_RBINDFAIL : Nat := 13

/-- ESME_RSYSERR, status 0x08. -/
def ESME_RSYSERR : Nat := 8

/-- What the local SMPP server does with a bind PDU: send an accepting
response (status and the system_id field of the response) and keep the
connection; send a rejecting response and close the connection; or
nothing, because the source registers no listener for that command. -/
inductive BindOutcome where
  | accept (command_status : Nat) (system_id : String)
  | reject (command_status : Nat)
  | noHandler
deriving DecidableEq

/-- The bind handling of a server session (src/unnamed/part_000 lines
293-333): listeners exist for bind_transceiver and bind_transmitter
only — authenticate, then either respond with the default status 0 and
system_id SMPP-GATEWAY, or respond ESME_RBINDFAIL and close.  No
listener is registered for bind_receiver, so a bind_receiver PDU is
never answered by the source. -/
def serverHandleBind (auth : List Cred) (k : BindKind)
    (sid pw : String) : BindOutcome :=
  match k with
  | BindKind.receiver => BindOutcome.noHandler
  | _ =>
    if authenticate auth sid pw then BindOutcome.accept 0 "SMPP-GATEWAY"
    else BindOutcome.reject ESME_RBINDFAIL

/-- Counterexample to claim C5: the claim covers every bind PDU,
bind_receiver included, but the server session registers no
bind_receiver listener, so even a bind_receiver with valid credentials
receives neither the accepting response nor ESME_RBINDFAIL. -/
theorem bind_receiver_unhandled_cex :
    serverHandleBind [{ system_id := "user", password := "pass" }]
        BindKind.receiver "user" "pass" = BindOutcome.noHandler
    ∧ authenticate [{ system_id := "user", password := "pass" }] "user" "pass"
        = true :=
  ⟨rfl, by decide⟩

/-- Claim C5 as amended: for every bind_transmitter or bind_transceiver
PDU received by the local SMPP server, the credentials are looked up in
the configured credential set; on a match the server replies with
command_status 0 and system_id SMPP-GATEWAY (the bind succeeds), and on
a mismatch it replies with ESME_RBINDFAIL (0x0D) and closes the
connection.  bind_receiver has no handler and is never answered. -/
theorem server_bind_spec (auth : List Cred) (sid pw : String) :
    (authenticate auth sid pw = true →
      serverHandleBind auth BindKind.transmitter sid pw
          = BindOutcome.accept 0 "SMPP-GATEWAY"
      ∧ serverHandleBind auth BindKind.transceiver sid pw
          = BindOutcome.accept 0 "SMPP-GATEWAY")
    ∧ (authenticate auth sid pw = false →
      serverHandleBind auth BindKind.transmitter sid pw
          = BindOutcome.reject ESME_RBINDFAIL
      ∧ serverHandleBind auth BindKind.transceiver sid pw
          = BindOutcome.reject ESME_RBINDFAIL) := by
  constructor
  · intro ha
    constructor <;> simp [serverHandleBind, ha]
  · intro ha
    constructor <;> simp [serverHandleBind, ha]

/-- Witness for claim C5 as amended: a matching credential is accepted
on bind_transceiver with status 0 and system_id SMPP-GATEWAY. -/
theorem server_bind_spec_witness :
    serverHandleBind [{ system_id := "smsgw", password := "smsgw" }]
        BindKind.transceiver "smsgw" "smsgw"
      = BindOutcome.accept 0 "SMPP-GATEWAY" :=
  ((server_bind_spec [{ system_id := "smsgw", password := "smsgw" }]
      "smsgw" "smsgw").1 (by decide)).2

/-- Claim C10: with an empty credential list every bind_transceiver and
bind_transmitter attempt, whatever the system_id and password, is
rejected with ESME_RBINDFAIL and the connection is closed; no client
can authenticate. -/
theorem empty_auth_rejects (sid pw : String) :
    serverHandleBind [] BindKind.transceiver sid pw
        = BindOutcome.reject ESME_RBINDFAIL
    ∧ serverHandleBind [] BindKind.transmitter sid pw
        = BindOutcome.reject ESME_RBINDFAIL := by
  have ha : authenticate [] sid pw = false := rfl
  constructor <;> simp [serverHandleBind, ha]

/-- The short_message field as the smpp library hands it to the handler:
a possibly absent object with a possibly absent decoded message and its
toString rendering. -/
structure SMsg where
  message : Option String
  raw : String
deriving DecidableEq

/-- The short_message extraction of the server submit_sm handler and of
the pdu listener (pdu.short_message?.message or pdu.short_message?.
toString() or the empty string, with JavaScript falsiness of the empty
string at each step). -/
def extractMessage : Option SMsg → String
  | none => ""
  | some m =>
    match m.message with
    | some s => if s = "" then (if m.raw = "" then "" else m.raw) else s
    | none => if m.raw = "" then "" else m.raw

/-- An incoming submit_sm on the local SMPP server. -/
structure SubmitIn where
  source_addr : String
  destination_addr : String
  short_message : Option SMsg
  data_coding : Option Nat
deriving DecidableEq

/-- The query the handler passes to the HTTP egress call. -/
structure EgressQuery where
  fromAddr : String
  toAddr : String
  text : String
  dcs : Nat
deriving DecidableEq

/-- The submit_sm response the server session sends back. -/
structure ServerReply where
  command_status : Nat
  message_id : String
deriving DecidableEq

/-- Whether a successful bind has occurred on a server session.  The
source keeps no such flag: the submit_sm listener is installed when the
session is created and never consults any bind state, which is why the
handler below ignores this value. -/
structure ServerSessionState where
  bound : Bool
deriving DecidableEq

/-- The server submit_sm handler (src/unnamed/part_000 lines 335-356):
extract from, to, short_message and data_coding, invoke the HTTP egress
(the first component is the query of that call), then reply status 0
with message_id msg- followed by the current unix milliseconds on
egress success, and ESME_RSYSERR on egress failure.  The session state
parameter is unused, faithfully to the source, which installs this
listener unconditionally on session creation. -/
def serverHandleSubmitSm (egressOk : Bool) (now : Nat)
    (st : ServerSessionState) (pdu : SubmitIn) : EgressQuery × ServerReply :=
  let q : EgressQuery :=
    { fromAddr := pdu.source_addr
    , toAddr := pdu.destination_addr
    , text := extractMessage pdu.short_message
    , dcs := natOr pdu.data_coding 0 }
  if egressOk then (q, { command_status := 0, message_id := "msg-" ++ toString now })
  else (q, { command_status := ESME_RSYSERR, message_id := "" })

/-- A concrete submit_sm for evaluation. -/
def submitIn0 : SubmitIn :=
  { source_addr := "500", destination_addr := "600",
    short_message := some { message := some "hello", raw := "hello" },
    data_coding := none }

/-- Counterexample to claim C6: a submit_sm on a session that never
bound (bound = false) is processed all the same — the egress call is
made and a status-0 reply with a message_id is sent — because the
source never gates the submit_sm listener on a bind state. -/
theorem server_submit_unbound_cex :
    serverHandleSubmitSm true 7 { bound := false } submitIn0
      = ({ fromAddr := "500", toAddr := "600", text := "hello", dcs := 0 },
         { command_status := 0, message_id := "msg-7" }) :=
  rfl

/-- Claim C6 as amended: the local SMPP server processes every
submit_sm regardless of the session bind state (it keeps no such
state); it extracts from, to, short_message and data_coding into the
HTTP egress query; on egress success it replies with command_status 0
and message_id msg- followed by the current unix milliseconds, and on
egress failure after retries are exhausted it replies with
ESME_RSYSERR (0x08). -/
theorem server_submit_spec (egressOk : Bool) (now : Nat)
    (st : ServerSessionState) (pdu : SubmitIn) :
    (∀ st2, serverHandleSubmitSm egressOk now st pdu
        = serverHandleSubmitSm egressOk now st2 pdu)
    ∧ (serverHandleSubmitSm egressOk now st pdu).1
        = { fromAddr := pdu.source_addr, toAddr := pdu.destination_addr,
            text := extractMessage pdu.short_message,
            dcs := natOr pdu.data_coding 0 }
    ∧ (egressOk = true →
        (serverHandleSubmitSm egressOk now st pdu).2
          = { command_status := 0, message_id := "msg-" ++ toString now })
    ∧ (egressOk = false →
        (serverHandleSubmitSm egressOk now st pdu).2
          = { command_status := ESME_RSYSERR, message_id := "" }) := by
  refine ⟨fun st2 => rfl, ?_, ?_, ?_⟩
  · cases egressOk <;> rfl
  · intro h; subst h; rfl
  · intro h; subst h; rfl

/-- Witness for claim C6 as amended, on the egress-failure side: the
reply carries ESME_RSYSERR. -/
theorem server_submit_spec_witness :
    (serverHandleSubmitSm false 3 { bound := true } submitIn0).2
      = { command_status := ESME_RSYSERR, message_id := "" } :=
  (server_submit_spec false 3 { bound := true } submitIn0).2.2.2 rfl

/-- scheduleReconnect (src/unnamed/part_000 lines 202-214), acting on
the reconnectTimeout field of the peer state: the input is the delay of
the pending reconnect timer when one exists, the output is the new
pending delay together with the fact of having cleared a previously
pending timer.  The new delay is the configured reconnect_interval with
JavaScript or-default 10000 ms. -/
def scheduleReconnect (reconnect_interval : Option Nat)
    (prev : Option Nat) : Option Nat × Bool :=
  (some (natOr reconnect_interval 10000), prev.isSome)

/-- Counterexample to claim C9: a peer whose reconnect_interval is
configured as 0 gets a 10000 ms timer, not one firing after the
configured interval — the JavaScript or-default treats a configured 0
as absent. -/
theorem schedule_reconnect_zero_cex :
    scheduleReconnect (some 0) none = (some 10000, false) :=
  rfl

/-- Claim C9 as amended: at most one reconnect timer is pending per peer
at any time — the pending timer lives in the single reconnectTimeout
field, and each call to scheduleReconnect cancels the pending timer
exactly when one exists before installing the new one, so timers are
never stacked; the new timer fires after the configured
reconnect_interval when that is non-zero, and after the 10000 ms
default when the interval is absent or configured 0. -/
theorem schedule_reconnect_spec (reconnect_interval : Option Nat)
    (prev : Option Nat) :
    (scheduleReconnect reconnect_interval prev).1.isSome = true
    ∧ (scheduleReconnect reconnect_interval prev).2 = prev.isSome
    ∧ (∀ v, reconnect_interval = some v → v ≠ 0 →
        (scheduleReconnect reconnect_interval prev).1 = some v)
    ∧ ((reconnect_interval = none ∨ reconnect_interval = some 0) →
        (scheduleReconnect reconnect_interval prev).1 = some 10000) := by
  refine ⟨rfl, rfl, ?_, ?_⟩
  · intro v hv hne
    simp [scheduleReconnect, (natOr_default reconnect_interval 10000).2 v hv hne]
  · intro h
    simp [scheduleReconnect, (natOr_default reconnect_interval 10000).1 h]

/-- Witness for claim C9 as amended: a pending timer is cleared and the
new timer uses the configured 5000 ms interval. -/
theorem schedule_reconnect_spec_witness :
    (scheduleReconnect (some 5000) (some 10000)).2 = (some (10000:Nat)).isSome
    ∧ (scheduleReconnect (some 5000) (some 10000)).1 = some 5000 :=
  ⟨(schedule_reconnect_spec (some 5000) (some 10000)).2.1,
   (schedule_reconnect_spec (some 5000) (some 10000)).2.2.1 5000 rfl (by decide)⟩

end Bridge
